import Mathlib

/-!
Shallow embedding of the Parcer arbitrage engine core
(`src/parcer/strategy/spread_engine.py`, `src/parcer/orders/position.py`,
`src/parcer/orders/risk_manager.py`, `src/parcer/orders/manager.py`,
`src/parcer/history.py`) together with theorems settling the frozen claims.

Modelling conventions:
* Python `float` prices/quantities are modelled as `ℚ` (the claims are about
  the algebraic form of the computations, not float rounding).
* Python division raising `ZeroDivisionError` is modelled by returning
  `Option`/`none` at the places where the source may actually divide by zero.
* Wall-clock timestamps (`datetime.now`) are irrelevant to every claim and are
  omitted from the embedded records.
* The `scenario` field of `Position` is embedded under the name `scen`.
-/

namespace Parcer

/-- Order response object (`exchanges/protocol.py`, class `Order`).
`status` is the raw venue string (`getattr(order, "status", None)` can be
absent, hence `Option`), `quantity` is `getattr(order, "quantity", None)`. -/
structure OrderResp where
  order_id : String
  price : ℚ
  status : Option String
  quantity : Option ℚ
deriving Repr, DecidableEq

/-- SpreadDetectionEngine price point (`spread_engine.py`, `PricePoint`).
`price_type` and `timestamp` are carried but unused by the claims. -/
structure PricePoint where
  price : ℚ
  exchange : String
  symbol : String
  timestamp : Option Int
deriving Repr, DecidableEq

/-- Embeds `SpreadDetectionEngine._make_key`: the f-string `exchange:symbol`. -/
def make_key (exchange symbol : String) : String :=
  exchange ++ ":" ++ symbol

/-- The engine price cache (`self.price_cache : dict[str, PricePoint]`),
modelled as an association list where the most recent binding is first;
`dict.get` is first-match lookup, dict assignment is a prepend. -/
def Cache := List (String × PricePoint)

/-- Embeds `SpreadDetectionEngine.update_price`: unconditional overwrite of the key. -/
def update_price (c : Cache) (exchange symbol : String) (price : ℚ)
    (timestamp : Option Int) : Cache :=
  (make_key exchange symbol,
    { price := price, exchange := exchange, symbol := symbol,
      timestamp := timestamp }) :: c

/-- Embeds `SpreadDetectionEngine.get_price`: `point.price if point else None`. -/
def get_price (c : Cache) (exchange symbol : String) : Option ℚ :=
  (c.lookup (make_key exchange symbol)).map PricePoint.price

/-- Embeds `SpreadDetectionEngine.calculate_spread`.  Both operands are checked for
zero before dividing, so the function is total. -/
def calculate_spread (price_a price_b : ℚ) (premium_base : Bool) : ℚ :=
  if price_b = 0 ∨ price_a = 0 then 0
  else if premium_base then (price_a - price_b) / price_b
  else (price_b - price_a) / price_a

/-- Embeds `SpreadCalculation` result record (`spread_engine.py`). -/
structure SpreadCalculation where
  spread : ℚ
  premium_exchange : String
  discount_exchange : String
  price_premium : ℚ
  price_discount : ℚ
deriving Repr, DecidableEq

/-- Embeds `SpreadDetectionEngine.detect_scenario_a_spread`: delegates the division
to `calculate_spread`, hence total. -/
def detect_scenario_a_spread (futures_price spot_price : ℚ) : SpreadCalculation :=
  let spread := calculate_spread futures_price spot_price true
  { spread := spread,
    premium_exchange := if spread > 0 then "futures" else "spot",
    discount_exchange := if spread > 0 then "spot" else "futures",
    price_premium := max futures_price spot_price,
    price_discount := min futures_price spot_price }

/-- Embeds `SpreadDetectionEngine.detect_scenario_b_spread`: divides directly with no
zero guard; `none` models the `ZeroDivisionError` the source raises when the
branch divisor is zero. -/
def detect_scenario_b_spread (price_a price_b : ℚ)
    (exchange_a exchange_b : String) : Option SpreadCalculation :=
  if price_a < price_b then
    if price_a = 0 then none
    else some { spread := (price_b - price_a) / price_a,
                premium_exchange := exchange_b, discount_exchange := exchange_a,
                price_premium := price_b, price_discount := price_a }
  else
    if price_b = 0 then none
    else some { spread := (price_a - price_b) / price_b,
                premium_exchange := exchange_a, discount_exchange := exchange_b,
                price_premium := price_a, price_discount := price_b }

/-- Embeds `PositionStatus` enum (`orders/position.py`). -/
inductive PositionStatus
  | pending
  | opened
  | closing
  | closed
  | error
deriving Repr, DecidableEq

/-- The `value` strings of the Python enum members. -/
def PositionStatus.value : PositionStatus → String
  | .pending => "pending"
  | .opened => "opened"
  | .closing => "closing"
  | .closed => "closed"
  | .error => "error"

/-- Embeds `PositionStatus(raw)` construction from a raw string: `none` models the
`ValueError` for an unrecognized value. -/
def PositionStatus.ofValue (raw : String) : Option PositionStatus :=
  if raw = "pending" then some .pending
  else if raw = "opened" then some .opened
  else if raw = "closing" then some .closing
  else if raw = "closed" then some .closed
  else if raw = "error" then some .error
  else none

/-- Embeds `Position` dataclass (`orders/position.py`); `scen` embeds the source
field `scenario`, datetime fields omitted. -/
structure Position where
  position_id : String
  symbol_a : String
  exchange_a : String
  symbol_b : String
  exchange_b : String
  scen : String
  leg_a_side : String
  leg_a_quantity : ℚ
  leg_b_side : String
  leg_b_quantity : ℚ
  entry_price_a : ℚ := 0
  entry_price_b : ℚ := 0
  entry_spread : ℚ := 0
  status : PositionStatus := .pending
  leg_a_order_id : Option String := none
  leg_b_order_id : Option String := none
  exit_spread : Option ℚ := none
  pnl : Option ℚ := none
deriving Repr, DecidableEq

/-- Embeds `Position._calculate_spread`: the guard checks only `price_b == 0`, but
the scenario-b branch divides by `price_a`; `none` models the uncaught
`ZeroDivisionError` there. -/
def posCalcSpread (scen : String) (price_a price_b : ℚ) : Option ℚ :=
  if price_b = 0 then some 0
  else if scen = "a" then some ((price_a - price_b) / price_b)
  else if price_a = 0 then none
  else some ((price_b - price_a) / price_a)

/-- Embeds `Position._calculate_pnl` (never divides; total). -/
def posCalcPnl (p : Position) (exit_price_a exit_price_b : ℚ) : ℚ :=
  if p.scen = "a" then
    (p.entry_price_a - exit_price_a) * p.leg_a_quantity
      + (exit_price_b - p.entry_price_b) * p.leg_b_quantity
  else
    (exit_price_a - p.entry_price_a) * p.leg_a_quantity
      + (p.entry_price_b - exit_price_b) * p.leg_b_quantity

/-- Embeds `Position.mark_opened`.  The source mutates `status` and the entry prices
before computing the spread, so when `_calculate_spread` raises, the partially
mutated position is returned with `true` (exception escaped). -/
def mark_opened (p : Position) (entry_price_a entry_price_b : ℚ) :
    Position × Bool :=
  let p1 := { p with status := .opened, entry_price_a := entry_price_a,
                     entry_price_b := entry_price_b }
  match posCalcSpread p.scen entry_price_a entry_price_b with
  | some sp => ({ p1 with entry_spread := sp }, false)
  | none => (p1, true)

/-- Embeds `Position.mark_closed`: sets `status`, computes `exit_spread` (may raise,
second component `true`), then the total `_calculate_pnl`. -/
def mark_closed (p : Position) (exit_price_a exit_price_b : ℚ) :
    Position × Bool :=
  let p1 := { p with status := .closed }
  match posCalcSpread p.scen exit_price_a exit_price_b with
  | some sp =>
      ({ p1 with exit_spread := some sp,
                 pnl := some (posCalcPnl p exit_price_a exit_price_b) }, false)
  | none => (p1, true)

/-- Embeds `Position.mark_error`. -/
def mark_error (p : Position) : Position :=
  { p with status := .error }

/-- Python `str.lower()`.  (`String.toLower` maps `Char.toLower` over the
characters; it is re-stated structurally here so that the kernel can evaluate
it on literals.) -/
def pyLower (s : String) : String := String.mk (s.data.map Char.toLower)

/-- Embeds `RiskManager.is_order_filled`: falsy status (absent or empty string) is
not filled, otherwise compare the lower-cased status against the set. -/
def is_order_filled (status : Option String) : Bool :=
  match status with
  | none => false
  | some s =>
      if s.isEmpty then false
      else pyLower s = "filled" || pyLower s = "closed"

/-- Embeds `RiskManager.validate_order_execution`: `error` models the raised
`ExecutionDiscrepancyError`.  The relative difference is only computed when
`expected_quantity > 0`, so the division is always well defined. -/
def validate_order_execution (order : OrderResp) (expected_quantity : ℚ) :
    Except Unit Unit :=
  if ¬ is_order_filled order.status then .error ()
  else
    match order.quantity with
    | some actual_qty =>
        if 0 < expected_quantity then
          if |actual_qty - expected_quantity| / expected_quantity > 1/100 then
            .error ()
          else .ok ()
        else .ok ()
    | none => .ok ()

/-- Embeds `RiskManager.check_position_limit`: `error` models the raised
`MaxPositionsError`. -/
def check_position_limit (max_positions current_positions : ℕ) :
    Except Unit Unit :=
  if current_positions ≥ max_positions then .error () else .ok ()

/-- Metadata values appearing in history events: strings, numbers, or JSON
null (Python `None`). -/
inductive MVal
  | s (v : String)
  | q (v : ℚ)
  | null
deriving Repr, DecidableEq

/-- History event event_type strings used by `history.py`. -/
inductive EvType
  | position_created
  | position_opened
  | position_closed
  | position_error
  | order_placed
  | order_cancelled
  | order_rollback
  | order_failed
  | insufficient_balance
deriving Repr, DecidableEq

/-- One recorded history row (`TradeHistory.record_trade_event` record dict);
the timestamp column is omitted, rows are kept in insertion order. -/
structure Event where
  etype : EvType
  position_id : String
  scen : String
  exchange_a : String
  exchange_b : String
  symbol_a : String
  symbol_b : String
  order_type : String := ""
  side : String := ""
  quantity : ℚ := 0
  price : ℚ := 0
  pnl : ℚ := 0
  status : String := ""
  error_message : String := ""
  metadata : List (String × MVal) := []
deriving Repr, DecidableEq

/-- Look a key up in an event metadata dict. -/
def mdGet (md : List (String × MVal)) (k : String) : Option MVal :=
  md.lookup k

/-- Embeds `TradeHistory.record_trade_event` would fill the position columns; this
helper builds the base row from a position. -/
def baseEvent (etype : EvType) (p : Position) : Event :=
  { etype := etype, position_id := p.position_id, scen := p.scen,
    exchange_a := p.exchange_a, exchange_b := p.exchange_b,
    symbol_a := p.symbol_a, symbol_b := p.symbol_b }

/-- Embeds `TradeHistory.record_position_created`. -/
def record_position_created (p : Position) : Event :=
  { baseEvent .position_created p with
    status := p.status.value,
    metadata := [("leg_a_side", .s p.leg_a_side),
                 ("leg_a_quantity", .q p.leg_a_quantity),
                 ("leg_b_side", .s p.leg_b_side),
                 ("leg_b_quantity", .q p.leg_b_quantity)] }

/-- Encode an optional order id the way `json.dumps` serialises `None`. -/
def mvalOfOptStr : Option String → MVal
  | none => .null
  | some v => .s v

/-- Embeds `TradeHistory.record_position_opened`: the `price` column carries
`entry_spread or 0.0`. -/
def record_position_opened (p : Position) : Event :=
  { baseEvent .position_opened p with
    status := "opened",
    price := p.entry_spread,
    metadata := [("entry_price_a", .q p.entry_price_a),
                 ("entry_price_b", .q p.entry_price_b),
                 ("leg_a_order_id", mvalOfOptStr p.leg_a_order_id),
                 ("leg_b_order_id", mvalOfOptStr p.leg_b_order_id)] }

/-- Embeds `TradeHistory.record_position_closed`: the `pnl` column carries
`position.pnl or 0.0`, metadata carries the raw `exit_spread`. -/
def record_position_closed (p : Position) : Event :=
  { baseEvent .position_closed p with
    status := "closed",
    pnl := p.pnl.getD 0,
    metadata := [("exit_spread",
                  match p.exit_spread with
                  | none => .null
                  | some v => .q v)] }

/-- Embeds `TradeHistory.record_position_error`. -/
def record_position_error (p : Position) (error_message : String) : Event :=
  { baseEvent .position_error p with
    status := "error", error_message := error_message }

/-- Embeds `TradeHistory.record_order_placed` as invoked by the manager (always with
order_id, exchange, symbol, status, phase and a leg tag). -/
def record_order_placed (p : Position) (order_side : String) (quantity : ℚ)
    (price : ℚ) (order_id : String) (exchange symbol : String)
    (status : Option String) (phase leg : String) : Event :=
  { baseEvent .order_placed p with
    order_type := "market",
    side := order_side,
    quantity := quantity,
    price := price,
    metadata := [("leg", .s leg),
                 ("order_id", .s order_id),
                 ("exchange", .s exchange),
                 ("symbol", .s symbol),
                 ("order_status", mvalOfOptStr status),
                 ("phase", .s phase)] }

/-- Embeds `TradeHistory.record_order_rollback`. -/
def record_order_rollback (p : Position) (original_order_id : Option String)
    (rollback_order_id : String) (exchange symbol side : String)
    (quantity price : ℚ) (status : Option String) (reason : String) : Event :=
  { baseEvent .order_rollback p with
    order_type := "market",
    side := side,
    quantity := quantity,
    price := price,
    status := status.getD "",
    metadata := [("exchange", .s exchange),
                 ("symbol", .s symbol),
                 ("reason", .s reason),
                 ("original_order_id", mvalOfOptStr original_order_id),
                 ("rollback_order_id", .s rollback_order_id)] }

/-- Embeds `TradeHistory.record_order_failed`. -/
def record_order_failed (p : Position) (exchange symbol side : String)
    (quantity : ℚ) (phase error_message : String) : Event :=
  { baseEvent .order_failed p with
    order_type := "market",
    side := side,
    quantity := quantity,
    error_message := error_message,
    metadata := [("exchange", .s exchange),
                 ("symbol", .s symbol),
                 ("phase", .s phase)] }

/-- Embeds `TradeHistory.record_order_cancelled` does not exist; the manager uses
`record_trade_event` directly for `order_cancelled` rows
(`manager.py`, `_cleanup_unconfirmed_order`). -/
def record_order_cancelled (p : Position) (side : String) (quantity : ℚ)
    (exchange symbol order_id phase : String) : Event :=
  { baseEvent .order_cancelled p with
    order_type := "cancel",
    side := side,
    quantity := quantity,
    status := "cancelled",
    metadata := [("exchange", .s exchange),
                 ("symbol", .s symbol),
                 ("order_id", .s order_id),
                 ("phase", .s phase)] }

/-- Embeds `TradeHistory.record_insufficient_balance`: builds the synthetic `ALERT`
position and records required/available/shortfall in metadata. -/
def alertPosition (exchange symbol : String) : Position :=
  { position_id := "ALERT", symbol_a := symbol, exchange_a := exchange,
    symbol_b := "", exchange_b := "", scen := "alert",
    leg_a_side := "", leg_a_quantity := 0, leg_b_side := "",
    leg_b_quantity := 0 }

/-- The `insufficient_balance` event row. -/
def record_insufficient_balance (exchange symbol : String)
    (required available : ℚ) : Event :=
  { baseEvent .insufficient_balance (alertPosition exchange symbol) with
    metadata := [("exchange", .s exchange),
                 ("symbol", .s symbol),
                 ("required", .q required),
                 ("available", .q available),
                 ("shortfall", .q (required - available))] }

/-- Embeds `RiskManager.check_balance_sufficiency`, given the fetched free balance.
Result: `none` models the uncaught `ZeroDivisionError` when the configured
leverage is zero; otherwise the pair of the outcome (`error` = raised
`InsufficientBalanceError`) and the recorded events (history assumed
configured). -/
def check_balance_sufficiency (exchange symbol : String)
    (leverage available quantity : ℚ) (price : Option ℚ) :
    Option (Except Unit Unit × List Event) :=
  match price with
  | none => some (.ok (), [])
  | some p =>
      if p = 0 then some (.ok (), [])
      else if leverage = 0 then none
      else
        let required := quantity * p / leverage
        if available < required then
          some (.error (),
            [record_insufficient_balance exchange symbol required available])
        else some (.ok (), [])

/-- Embeds `OrderManager._opposite_side`. -/
def opposite_side (side : String) : String :=
  if pyLower side = "buy" then "sell" else "buy"

/-- The venue responses consumed by one client during one manager run: the
first and (when reached) second `place_market_order` call, and whether
`cancel_order` succeeds.  `Except.error` models a raised venue exception. -/
structure ClientEnv where
  place1 : Except Unit OrderResp
  place2 : Except Unit OrderResp
  cancelOk : Bool
deriving Repr

/-- Result of one `entry_order`/`exit_order` run: the returned boolean, the
position after all mutations, and the history rows written (history assumed
configured). -/
structure RunResult where
  ret : Bool
  pos : Position
  events : List Event
deriving Repr, DecidableEq

/-- Embeds `OrderManager._hedge_market_order`: place the compensating market order;
on success record `order_rollback`, on a raised placement record
`order_failed` with phase = reason (error text abstracted to `""`). -/
def hedge_market_order (resp : Except Unit OrderResp) (p : Position)
    (exchange symbol side : String) (quantity : ℚ)
    (original_order_id : Option String) (reason : String) : List Event :=
  match resp with
  | .ok o =>
      [record_order_rollback p original_order_id o.order_id exchange symbol
        side quantity o.price o.status reason]
  | .error _ =>
      [record_order_failed p exchange symbol side quantity reason ""]

/-- Embeds `OrderManager._cleanup_unconfirmed_order`: best-effort cancel (recorded
only when the id is truthy and the cancel succeeds), then the opposite-side
hedge. -/
def cleanup_unconfirmed_order (cancelOk : Bool)
    (hedgeResp : Except Unit OrderResp) (p : Position)
    (exchange symbol original_side : String) (quantity : ℚ)
    (order_id : String) (phase : String) : List Event :=
  (if ¬ order_id.isEmpty ∧ cancelOk then
    [record_order_cancelled p original_side quantity exchange symbol
      order_id phase]
  else []) ++
  hedge_market_order hedgeResp p exchange symbol (opposite_side original_side)
    quantity (some order_id) (phase ++ "_unconfirmed_cleanup")

/-- Environment of one `entry_order` run: the open-position count seen by the
risk gate, the free USDT balances fetched on each venue, the price hints, and
the two clients' responses. -/
structure EntryEnv where
  openCount : ℕ
  availA : ℚ
  availB : ℚ
  hintA : Option ℚ
  hintB : Option ℚ
  clientA : ClientEnv
  clientB : ClientEnv
deriving Repr

/-- Embeds `OrderManager.entry_order` from the point where leg A has been validated
(`p1` already carries `leg_a_order_id`); split out so the compensation
bookkeeping can be reasoned about in isolation.  `none` models the uncaught
exception escaping from `mark_opened`. -/
def entryAfterAValid (p1 : Position) (oa : OrderResp) (cA cB : ClientEnv) :
    Option RunResult :=
  match cB.place1 with
  | .error _ =>
      some ⟨false, mark_error p1,
        [record_order_failed p1 p1.exchange_b p1.symbol_b p1.leg_b_side
          p1.leg_b_quantity "entry" ""] ++
        hedge_market_order cA.place2 p1 p1.exchange_a p1.symbol_a
          (opposite_side p1.leg_a_side) p1.leg_a_quantity (some oa.order_id)
          "entry_leg_b_failed" ++
        [record_position_error p1 "Leg B failed, rolled back leg A"]⟩
  | .ok ob =>
      let p2 := { p1 with leg_b_order_id := some ob.order_id }
      let evB := record_order_placed p2 p2.leg_b_side p2.leg_b_quantity
        ob.price ob.order_id p2.exchange_b p2.symbol_b ob.status "entry" "b"
      match validate_order_execution ob p2.leg_b_quantity with
      | .error _ =>
          some ⟨false, mark_error p2,
            [evB] ++
            cleanup_unconfirmed_order cB.cancelOk cB.place2 p2 p2.exchange_b
              p2.symbol_b p2.leg_b_side p2.leg_b_quantity ob.order_id
              "entry" ++
            hedge_market_order cA.place2 p2 p2.exchange_a p2.symbol_a
              (opposite_side p2.leg_a_side) p2.leg_a_quantity
              (some oa.order_id) "entry_leg_b_unconfirmed" ++
            [record_position_error p2 "Leg B not confirmed"]⟩
      | .ok _ =>
          match mark_opened p2 oa.price ob.price with
          | (_, true) => none
          | (p3, false) => some ⟨true, p3, [evB, record_position_opened p3]⟩

/-- Embeds `OrderManager.entry_order` (risk manager and history configured).  Error
messages are abstracted to fixed strings; `none` models an exception escaping
the whole call (zero leverage during a balance check, or `mark_opened`
raising). -/
def entry_order (leverage : ℚ) (max_positions : ℕ) (env : EntryEnv)
    (p : Position) : Option RunResult :=
  match check_position_limit max_positions env.openCount with
  | .error _ =>
      some ⟨false, mark_error p,
        [record_position_error p "Maximum positions limit reached"]⟩
  | .ok _ =>
  match check_balance_sufficiency p.exchange_a p.symbol_a leverage env.availA
      p.leg_a_quantity env.hintA with
  | none => none
  | some (.error _, evsA) =>
      some ⟨false, mark_error p,
        evsA ++ [record_position_error p "Insufficient USDT balance"]⟩
  | some (.ok _, _) =>
  match check_balance_sufficiency p.exchange_b p.symbol_b leverage env.availB
      p.leg_b_quantity env.hintB with
  | none => none
  | some (.error _, evsB) =>
      some ⟨false, mark_error p,
        evsB ++ [record_position_error p "Insufficient USDT balance"]⟩
  | some (.ok _, _) =>
  match env.clientA.place1 with
  | .error _ =>
      some ⟨false, mark_error p,
        [record_order_failed p p.exchange_a p.symbol_a p.leg_a_side
          p.leg_a_quantity "entry" "",
         record_position_error p "Leg A failed"]⟩
  | .ok oa =>
      let p1 := { p with leg_a_order_id := some oa.order_id }
      let evA := record_order_placed p1 p1.leg_a_side p1.leg_a_quantity
        oa.price oa.order_id p1.exchange_a p1.symbol_a oa.status "entry" "a"
      match validate_order_execution oa p1.leg_a_quantity with
      | .error _ =>
          some ⟨false, mark_error p1,
            [evA] ++
            cleanup_unconfirmed_order env.clientA.cancelOk env.clientA.place2
              p1 p1.exchange_a p1.symbol_a p1.leg_a_side p1.leg_a_quantity
              oa.order_id "entry" ++
            [record_position_error p1 "Leg A not confirmed"]⟩
      | .ok _ =>
          (entryAfterAValid p1 oa env.clientA env.clientB).map
            (fun r => ⟨r.ret, r.pos, evA :: r.events⟩)

/-- Environment of one `exit_order` run. -/
structure ExitEnv where
  clientA : ClientEnv
  clientB : ClientEnv
deriving Repr

/-- Python truthiness of an optional order-id string (`not order_id`). -/
def falsyId : Option String → Bool
  | none => true
  | some s => s.isEmpty

/-- Embeds `OrderManager.exit_order` (history configured); `none` models an
exception escaping from `mark_closed`. -/
def exit_order (env : ExitEnv) (p : Position) : Option RunResult :=
  if falsyId p.leg_a_order_id || falsyId p.leg_b_order_id then
    some ⟨false, p, []⟩
  else
    let p0 := { p with status := PositionStatus.closing }
    let exit_side_a := opposite_side p0.leg_a_side
    let exit_side_b := opposite_side p0.leg_b_side
    match env.clientA.place1 with
    | .error _ =>
        some ⟨false, mark_error p0,
          [record_order_failed p0 p0.exchange_a p0.symbol_a exit_side_a
            p0.leg_a_quantity "exit" "",
           record_position_error p0 "Exit leg A failed"]⟩
    | .ok oa =>
        let evA := record_order_placed p0 exit_side_a p0.leg_a_quantity
          oa.price oa.order_id p0.exchange_a p0.symbol_a oa.status "exit" "a"
        match validate_order_execution oa p0.leg_a_quantity with
        | .error _ =>
            some ⟨false, mark_error p0,
              [evA] ++
              cleanup_unconfirmed_order env.clientA.cancelOk
                env.clientA.place2 p0 p0.exchange_a p0.symbol_a exit_side_a
                p0.leg_a_quantity oa.order_id "exit" ++
              [record_position_error p0 "Exit leg A not confirmed"]⟩
        | .ok _ =>
            match env.clientB.place1 with
            | .error _ =>
                some ⟨false, mark_error p0,
                  [evA,
                   record_order_failed p0 p0.exchange_b p0.symbol_b
                     exit_side_b p0.leg_b_quantity "exit" ""] ++
                  hedge_market_order env.clientA.place2 p0 p0.exchange_a
                    p0.symbol_a p0.leg_a_side p0.leg_a_quantity
                    (some oa.order_id) "exit_leg_b_failed_reopen_leg_a" ++
                  [record_position_error p0 "Exit leg B failed"]⟩
            | .ok ob =>
                let evB := record_order_placed p0 exit_side_b
                  p0.leg_b_quantity ob.price ob.order_id p0.exchange_b
                  p0.symbol_b ob.status "exit" "b"
                match validate_order_execution ob p0.leg_b_quantity with
                | .error _ =>
                    some ⟨false, mark_error p0,
                      [evA, evB] ++
                      cleanup_unconfirmed_order env.clientB.cancelOk
                        env.clientB.place2 p0 p0.exchange_b p0.symbol_b
                        exit_side_b p0.leg_b_quantity ob.order_id "exit" ++
                      hedge_market_order env.clientA.place2 p0 p0.exchange_a
                        p0.symbol_a p0.leg_a_side p0.leg_a_quantity
                        (some oa.order_id)
                        "exit_leg_b_unconfirmed_reopen_leg_a" ++
                      [record_position_error p0 "Exit leg B not confirmed"]⟩
                | .ok _ =>
                    match mark_closed p0 oa.price ob.price with
                    | (_, true) => none
                    | (p3, false) =>
                        some ⟨true, p3,
                          [evA, evB, record_position_closed p3]⟩

/-- Embeds `TradeHistory.get_position_history`: the rows of one position, in
same-process insertion order (the SQLite query orders by timestamp, which is
insertion order for rows written by one process). -/
def get_position_history (events : List Event) (pid : String) : List Event :=
  events.filter (fun e => e.position_id == pid)

/-- The four lifecycle event types of `load_position`/`count_open_positions`. -/
def isLifecycle (e : Event) : Bool :=
  e.etype == .position_created || e.etype == .position_opened ||
  e.etype == .position_closed || e.etype == .position_error

/-- Embeds `float(md.get(k) or 0.0)` on a metadata value: missing, null, zero and
empty-string values collapse to `0`; a non-empty string would go through
`float(str)`, which never happens for rows written by this module and is
modelled as a failed load. -/
def mdFloatOr0 : Option MVal → Option ℚ
  | none => some 0
  | some .null => some 0
  | some (.q v) => some v
  | some (.s st) => if st.isEmpty then some 0 else none

/-- A metadata value read back as an optional string (order ids). -/
def mdOptStr : Option MVal → Option String
  | some (.s v) => some v
  | _ => none

/-- A metadata value read back raw into a float-or-None field
(`closed_md.get("exit_spread")`). -/
def mdFloatOpt : Option MVal → Option ℚ
  | some (.q v) => some v
  | _ => none

/-- Embeds `TradeHistory.load_position`: fold the recorded events back into a
`Position`.  `none` covers both the source's `return None` cases and an
escaping conversion error. -/
def load_position (events : List Event) (pid : String) : Option Position :=
  let evs := get_position_history events pid
  if evs.isEmpty then none else
  match evs.find? (fun e => e.etype == .position_created) with
  | none => none
  | some created => do
      let cmd := created.metadata
      let laq ← mdFloatOr0 (mdGet cmd "leg_a_quantity")
      let lbq ← mdFloatOr0 (mdGet cmd "leg_b_quantity")
      let p0 : Position :=
        { position_id :=
            if created.position_id.isEmpty then pid else created.position_id,
          symbol_a := created.symbol_a,
          exchange_a := created.exchange_a,
          symbol_b := created.symbol_b,
          exchange_b := created.exchange_b,
          scen := created.scen,
          leg_a_side := (mdOptStr (mdGet cmd "leg_a_side")).getD "",
          leg_a_quantity := laq,
          leg_b_side := (mdOptStr (mdGet cmd "leg_b_side")).getD "",
          leg_b_quantity := lbq }
      let lifecycle := evs.filter isLifecycle
      let latest := (lifecycle.getLast?).getD created
      let p1 :=
        if latest.status.isEmpty then p0 else
        match PositionStatus.ofValue latest.status with
        | some st => { p0 with status := st }
        | none => p0
      let p2 ←
        match lifecycle.reverse.find? (fun e => e.etype == .position_opened)
          with
        | none => pure p1
        | some opened => do
            let omd := opened.metadata
            let epa ← mdFloatOr0 (mdGet omd "entry_price_a")
            let epb ← mdFloatOr0 (mdGet omd "entry_price_b")
            pure { p1 with
              entry_spread := opened.price,
              entry_price_a := epa,
              entry_price_b := epb,
              leg_a_order_id := mdOptStr (mdGet omd "leg_a_order_id"),
              leg_b_order_id := mdOptStr (mdGet omd "leg_b_order_id") }
      let p3 :=
        match lifecycle.reverse.find? (fun e => e.etype == .position_closed)
          with
        | none => p2
        | some closed =>
            { p2 with
              exit_spread := mdFloatOpt (mdGet closed.metadata "exit_spread"),
              pnl := some closed.pnl }
      pure p3

/-- One `update_price` call of a C9 sequence. -/
structure Upd where
  exchange : String
  symbol : String
  price : ℚ
  timestamp : Option Int
deriving Repr, DecidableEq

/-- Apply a sequence of `update_price` calls to a fresh cache. -/
def applyUpdates (us : List Upd) : Cache :=
  us.foldl
    (fun c u => update_price c u.exchange u.symbol u.price u.timestamp)
    ([] : Cache)

/-- Modelled from the spec's words for the C9 refinement comparison: the
price of the last update whose venue and symbol arguments equal the queried
pair, `none` if there is no such call. -/
def specLastWritten (us : List Upd) (exchange symbol : String) : Option ℚ :=
  (us.reverse.find?
    (fun u => u.exchange == exchange && u.symbol == symbol)).map Upd.price

/-- No colon occurs in the string (venue names in practice). -/
def colonFree (t : String) : Prop := ':' ∉ t.data

/-- A scenario-a sample position used by witnesses and counterexamples. -/
def samplePos : Position :=
  { position_id := "p1", symbol_a := "BTCUSDT", exchange_a := "binance",
    symbol_b := "BTCUSDT", exchange_b := "bybit", scen := "a",
    leg_a_side := "buy", leg_a_quantity := 1, leg_b_side := "sell",
    leg_b_quantity := 1 }

/-- The status clause of claim C3, spelled as the claim does: the status is
known and lower-cases into the FILLED/CLOSED set. -/
def statusFilledOrClosed (status : Option String) : Prop :=
  ∃ s, status = some s ∧ (pyLower s = "filled" ∨ pyLower s = "closed")

/-- A fully-filled sample order response. -/
def okOrder (oid : String) (px : ℚ) : OrderResp :=
  { order_id := oid, price := px, status := some "FILLED", quantity := some 1 }

/-- A sample client that fills both its first and second placement. -/
def sampleClient (oid hid : String) (px : ℚ) : ClientEnv :=
  { place1 := .ok (okOrder oid px), place2 := .ok (okOrder hid px),
    cancelOk := true }

/-- A sample entry environment where everything succeeds. -/
def sampleEntryEnv : EntryEnv :=
  { openCount := 0, availA := 100000, availB := 100000,
    hintA := some 50000, hintB := some 45000,
    clientA := sampleClient "a1" "ha" 50000,
    clientB := sampleClient "b1" "hb" 45000 }

/-- A sample exit environment where everything succeeds. -/
def sampleExitEnv : ExitEnv :=
  { clientA := sampleClient "xa" "ra" 49000,
    clientB := sampleClient "xb" "rb" 45500 }

/-- The two colliding updates of the C9 counterexample: distinct
(venue, symbol) pairs sharing the concatenated cache key `a:b:c`. -/
def c9collide : List Upd := [⟨"a", "b:c", 1, none⟩, ⟨"a:b", "c", 2, none⟩]

/-- A colon-free three-update sequence for the C9 witness. -/
def c9seq : List Upd :=
  [⟨"binance", "BTCUSDT", 5, none⟩, ⟨"bybit", "BTCUSDT", 6, none⟩,
   ⟨"binance", "BTCUSDT", 7, none⟩]

/-- The C6 witness position before opening, with both order ids set. -/
def c6p0 : Position :=
  { samplePos with leg_a_order_id := some "a1", leg_b_order_id := some "b1" }

/-- The C6 witness position after `mark_opened(50000, 45000)`. -/
def c6p1 : Position := (mark_opened c6p0 50000 45000).1

/-- The C6 witness position after `mark_closed(49000, 45500)`. -/
def c6p2 : Position := (mark_closed c6p1 49000 45500).1

/-- Position of each status along the forward chain
PENDING < OPENED < CLOSING < CLOSED, with ERROR as the terminal top. -/
def statusRank : PositionStatus → ℕ
  | .pending => 0
  | .opened => 1
  | .closing => 2
  | .closed => 3
  | .error => 4

/-- One public position-mutating operation applied from its intended
pre-state: `mark_opened`/`entry_order` from PENDING, `mark_closed` from
CLOSING, `exit_order` from OPENED, `mark_error` from any non-terminal
state. -/
inductive PosOpStep : Position → Position → Prop
  | mk_opened (p : Position) (pa pb : ℚ) (p' : Position) :
      p.status = .pending → mark_opened p pa pb = (p', false) → PosOpStep p p'
  | mk_closed (p : Position) (pa pb : ℚ) (p' : Position) :
      p.status = .closing → mark_closed p pa pb = (p', false) → PosOpStep p p'
  | mk_errored (p : Position) :
      p.status ≠ .closed → p.status ≠ .error → PosOpStep p (mark_error p)
  | entry (lev : ℚ) (maxP : ℕ) (env : EntryEnv) (p : Position)
      (r : RunResult) :
      p.status = .pending → entry_order lev maxP env p = some r →
      PosOpStep p r.pos
  | exited (env : ExitEnv) (p : Position) (r : RunResult) :
      p.status = .opened → exit_order env p = some r → PosOpStep p r.pos

/-- An ERROR position with both order ids recorded: the state reached when
entry leg B was not confirmed. -/
def c5errPos : Position :=
  { samplePos with
    status := PositionStatus.error
    leg_a_order_id := some "a1"
    leg_b_order_id := some "b1" }

/-- The C1 filter: an `order_rollback` row whose metadata venue is
`position.exchange_a`, whose side is the opposite of `leg_a_side`, and whose
quantity is `leg_a_quantity`. -/
def rollbackOnVenueA (p : Position) (e : Event) : Bool :=
  e.etype == .order_rollback &&
  mdGet e.metadata "exchange" == some (.s p.exchange_a) &&
  e.side == opposite_side p.leg_a_side &&
  e.quantity == p.leg_a_quantity

/-- Number of venue-A rollback rows among the recorded events. -/
def rollbackOnVenueACount (p : Position) (evs : List Event) : ℕ :=
  evs.countP (rollbackOnVenueA p)

/-- C1 counterexample environment: leg A fills and validates, leg B's
placement raises, and the compensating hedge order on venue A raises too. -/
def c1cexEnv : EntryEnv :=
  { openCount := 0, availA := 100000, availB := 100000,
    hintA := some 50000, hintB := some 45000,
    clientA := { place1 := .ok (okOrder "a1" 50000), place2 := .error (),
                 cancelOk := true },
    clientB := { place1 := .error (), place2 := .error (),
                 cancelOk := true } }

/-- C1 witness environment: leg B's placement raises, the hedge on venue A
succeeds. -/
def c1wEnv : EntryEnv :=
  { sampleEntryEnv with
    clientB := { place1 := .error (), place2 := .error (),
                 cancelOk := true } }

/-- The concrete run of the C1 witness. -/
def c1wRun : RunResult :=
  (entry_order 3 2 c1wEnv samplePos).getD ⟨false, samplePos, []⟩

/-- C2 counterexample: a scenario-a position entered at `entry_price_a = 2`,
`entry_price_b = 1` and closed at `exit_price_a = 3`, `exit_price_b = 1`
(all quantities 1).  The claim's leg-A-long formula gives
`(3 − 2) * 1 + (1 − 1) * 1 = 1`, but `mark_closed` stores `-1`:
`_calculate_pnl` uses `(entry − exit) * qty` for leg A in scenario a. -/
theorem C2_counterexample :
    ((mark_closed (mark_opened samplePos 2 1).1 3 1).1).pnl ≠
      some ((3 - 2) * 1 + (1 - 1) * 1 : ℚ) := by
  have h : ((mark_closed (mark_opened samplePos 2 1).1 3 1).1).pnl
      = some (-1) := by
    norm_num [mark_closed, mark_opened, posCalcSpread, posCalcPnl, samplePos]
  rw [h]
  norm_num

/-- C2 amended: for every scenario-a position with recorded entry prices and
quantities, `mark_closed(exit_a, exit_b)` sets
`pnl = (entry_price_a − exit_price_a) * qty_a +
(exit_price_b − entry_price_b) * qty_b` — leg A treated as short and leg B as
long, the reverse of the claimed signs. -/
theorem C2_amended_pnl (p : Position) (h : p.scen = "a") (xa xb : ℚ) :
    ((mark_closed p xa xb).1).pnl =
      some ((p.entry_price_a - xa) * p.leg_a_quantity +
            (xb - p.entry_price_b) * p.leg_b_quantity) := by
  unfold mark_closed posCalcSpread posCalcPnl
  rw [h]
  by_cases hb : xb = 0 <;> simp [hb]

/-- C2 witness: the amended formula instantiated on the counterexample
position. -/
theorem C2_amended_pnl_witness :
    ((mark_closed (mark_opened samplePos 2 1).1 3 1).1).pnl =
      some (((mark_opened samplePos 2 1).1.entry_price_a - 3) *
              (mark_opened samplePos 2 1).1.leg_a_quantity +
            (1 - (mark_opened samplePos 2 1).1.entry_price_b) *
              (mark_opened samplePos 2 1).1.leg_b_quantity) :=
  C2_amended_pnl (mark_opened samplePos 2 1).1 (by decide) 3 1

/-- Embeds `is_order_filled` decides exactly `statusFilledOrClosed`. -/
theorem is_order_filled_iff (st : Option String) :
    is_order_filled st = true ↔ statusFilledOrClosed st := by
  cases st with
  | none => simp [is_order_filled, statusFilledOrClosed]
  | some s =>
      simp only [is_order_filled, statusFilledOrClosed]
      by_cases he : s.isEmpty
      · have hs : s = "" := (String.isEmpty_iff s).mp he
        subst hs
        simpa using fun h => by rcases h with h | h <;> exact absurd h (by decide)
      · simp [he]

/-- For a nonpositive requested quantity the claim's relative difference is
never above the tolerance: rational division by zero is zero, and division of
the nonnegative numerator by a negative is nonpositive. -/
theorem relDiff_nonpos (q e : ℚ) (he : e ≤ 0) : ¬ |q - e| / e > 1/100 := by
  rcases eq_or_lt_of_le he with h0 | hneg
  · rw [h0, div_zero]
    norm_num
  · have h : |q - e| / e ≤ 0 := div_nonpos_of_nonneg_of_nonpos (abs_nonneg _) he
    intro hgt
    linarith

/-- C3: the execution-validation predicate raises `ExecutionDiscrepancy`
exactly when the order status, compared case-insensitively, is not FILLED or
CLOSED, or the filled quantity is known and differs from the requested one by
more than 1% of it; otherwise it returns without error. -/
theorem C3_validate_execution (order : OrderResp) (expected : ℚ) :
    validate_order_execution order expected = .error () ↔
      (¬ statusFilledOrClosed order.status ∨
       ∃ q, order.quantity = some q ∧ |q - expected| / expected > 1/100) := by
  rw [← is_order_filled_iff]
  unfold validate_order_execution
  cases hq : order.quantity with
  | none =>
      by_cases hf : is_order_filled order.status <;> simp [hf, hq]
  | some q =>
      by_cases hf : is_order_filled order.status
      · by_cases hpos : 0 < expected
        · by_cases hrel : |q - expected| / expected > 1/100 <;>
            simp [hf, hpos, hrel]
        · have hnr := not_lt.mp (relDiff_nonpos q expected (le_of_not_lt hpos))
          simp only [hf, hpos, if_false, if_true, Bool.not_true]
          constructor
          · intro h
            simp at h
          · rintro (h | ⟨q', hqq, hrel'⟩)
            · simp at h
            · cases hqq
              exact absurd hrel' (not_lt.mpr hnr)
      · simp [hf]

/-- C4 counterexample: with prices `(0, 1)` the scenario-B engine spread and
the scenario-b position spread both divide by the zero price — `none` here is
the uncaught `ZeroDivisionError` — instead of returning spread 0. -/
theorem C4_counterexample :
    detect_scenario_b_spread 0 1 "A" "B" = none ∧
      posCalcSpread "b" 0 1 = none := by
  constructor <;> rfl

/-- C4 amended: the zero-denominator guard holds for `calculate_spread`
(hence for the scenario-A spread) and for the scenario-a position spread,
which return 0; but `detect_scenario_b_spread` raises `ZeroDivisionError`
when its selected branch divisor (the smaller price, or `price_b` in the
not-smaller branch) is zero, and the scenario-b position spread raises when
`price_a` is zero while `price_b` is not. -/
theorem C4_amended_zero_division :
    (∀ a b : ℚ, ∀ prem : Bool, (b = 0 ∨ a = 0) →
       calculate_spread a b prem = 0) ∧
    (∀ fp : ℚ, (detect_scenario_a_spread fp 0).spread = 0) ∧
    (∀ a : ℚ, posCalcSpread "a" a 0 = some 0) ∧
    (∀ b : ℚ, ∀ ea eb : String, 0 < b →
       detect_scenario_b_spread 0 b ea eb = none) ∧
    (∀ a : ℚ, ∀ ea eb : String, 0 ≤ a →
       detect_scenario_b_spread a 0 ea eb = none) ∧
    (∀ b : ℚ, b ≠ 0 → posCalcSpread "b" 0 b = none) := by
  refine ⟨?_, ?_, ?_, ?_, ?_, ?_⟩
  · intro a b prem h
    unfold calculate_spread
    rw [if_pos h]
  · intro fp
    simp [detect_scenario_a_spread, calculate_spread]
  · intro a
    simp [posCalcSpread]
  · intro b ea eb hb
    simp [detect_scenario_b_spread, hb]
  · intro a ea eb ha
    have hna : ¬ a < 0 := not_lt.mpr ha
    simp [detect_scenario_b_spread, hna]
  · intro b hb
    simp [posCalcSpread, hb]

/-- C4 witness: the amended statement instantiated at concrete prices. -/
theorem C4_amended_zero_division_witness :
    calculate_spread 7 0 true = 0 ∧
      (detect_scenario_a_spread 7 0).spread = 0 ∧
      posCalcSpread "a" 7 0 = some 0 ∧
      detect_scenario_b_spread 0 2 "x" "y" = none ∧
      detect_scenario_b_spread 2 0 "x" "y" = none ∧
      posCalcSpread "b" 0 2 = none :=
  ⟨C4_amended_zero_division.1 7 0 true (Or.inl rfl),
   C4_amended_zero_division.2.1 7,
   C4_amended_zero_division.2.2.1 7,
   C4_amended_zero_division.2.2.2.1 2 "x" "y" (by norm_num),
   C4_amended_zero_division.2.2.2.2.1 2 "x" "y" (by norm_num),
   C4_amended_zero_division.2.2.2.2.2 2 (by norm_num)⟩

/-- C7 counterexample: a known price hint of `0` with a negative free balance.
The claim's condition `required = (qty × price) / leverage > available`
(here `0 > −1`) asks for a rejection, but the source skips the whole check
for `price == 0.0` and returns success with no event recorded. -/
theorem C7_counterexample :
    check_balance_sufficiency "binance" "BTCUSDT" 1 (-1) 1 (some 0) =
        some (.ok (), []) ∧
      (1 : ℚ) * 0 / 1 > -1 := by
  constructor
  · rfl
  · norm_num

/-- C7 amended: with a known nonzero price hint (and the configured nonzero
leverage) the balance check raises `InsufficientBalance` exactly when
`required = (qty × price) / leverage` exceeds the available free balance, and
on rejection records one `insufficient_balance` event carrying required,
available and `shortfall = required − available` in its metadata; when the
price hint is absent — or zero, which the source treats the same way — the
check is skipped and nothing is raised or recorded. -/
theorem C7_amended_balance_check (ex sym : String) (lev avail qty p : ℚ)
    (hlev : lev ≠ 0) (hp : p ≠ 0) :
    (check_balance_sufficiency ex sym lev avail qty (some p) =
       if avail < qty * p / lev then
         some (.error (),
           [record_insufficient_balance ex sym (qty * p / lev) avail])
       else some (.ok (), [])) ∧
    check_balance_sufficiency ex sym lev avail qty none = some (.ok (), []) ∧
    mdGet (record_insufficient_balance ex sym (qty * p / lev) avail).metadata
        "required" = some (.q (qty * p / lev)) ∧
    mdGet (record_insufficient_balance ex sym (qty * p / lev) avail).metadata
        "available" = some (.q avail) ∧
    mdGet (record_insufficient_balance ex sym (qty * p / lev) avail).metadata
        "shortfall" = some (.q (qty * p / lev - avail)) := by
  refine ⟨?_, rfl, rfl, rfl, rfl⟩
  simp [check_balance_sufficiency, hp, hlev]

/-- C7 witness: the amended balance check at the literal inputs of the spec's
insufficient-balance scenario (balance 100, qty 1, price 50000, leverage 3). -/
theorem C7_amended_balance_check_witness :
    (check_balance_sufficiency "binance" "BTCUSDT" 3 100 1 (some 50000) =
       if (100 : ℚ) < 1 * 50000 / 3 then
         some (.error (),
           [record_insufficient_balance "binance" "BTCUSDT"
             (1 * 50000 / 3) 100])
       else some (.ok (), [])) ∧
      check_balance_sufficiency "binance" "BTCUSDT" 3 100 1 none =
        some (.ok (), []) :=
  ⟨(C7_amended_balance_check "binance" "BTCUSDT" 3 100 1 50000
      (by norm_num) (by norm_num)).1,
   (C7_amended_balance_check "binance" "BTCUSDT" 3 100 1 50000
      (by norm_num) (by norm_num)).2.1⟩

/-- C8: the position-limit check raises `MaxPositions` exactly when the
current open count has reached the configured maximum, and with
`max_positions = 0` every `entry_order` run terminates in ERROR having
recorded only a `position_error` row — no order is ever placed. -/
theorem C8_position_limit :
    (∀ maxP n : ℕ, check_position_limit maxP n = .error () ↔ maxP ≤ n) ∧
    (∀ lev : ℚ, ∀ env : EntryEnv, ∀ p : Position,
       entry_order lev 0 env p =
         some ⟨false, mark_error p,
               [record_position_error p "Maximum positions limit reached"]⟩) := by
  constructor
  · intro maxP n
    unfold check_position_limit
    by_cases h : n ≥ maxP <;> simp [h]
  · intro lev env p
    simp [entry_order, check_position_limit]

/-- C8 witness: rejection at count 3 with limit 2, and a concrete
`max_positions = 0` entry run that records only the error row. -/
theorem C8_position_limit_witness :
    check_position_limit 2 3 = .error () ∧
      entry_order 3 0 sampleEntryEnv samplePos =
        some ⟨false, mark_error samplePos,
              [record_position_error samplePos
                "Maximum positions limit reached"]⟩ :=
  ⟨(C8_position_limit.1 2 3).mpr (by norm_num),
   C8_position_limit.2 3 sampleEntryEnv samplePos⟩

/-- C10: when either leg order id is `None`, `exit_order` returns `False`
with no history event written and the position returned exactly as it was —
in particular its status is not moved to CLOSING or ERROR. -/
theorem C10_exit_requires_order_ids (env : ExitEnv) (p : Position)
    (h : p.leg_a_order_id = none ∨ p.leg_b_order_id = none) :
    exit_order env p = some ⟨false, p, []⟩ := by
  rcases h with h | h <;> simp [exit_order, h, falsyId]

/-- C10 witness: a position missing the leg-A order id is left untouched. -/
theorem C10_exit_requires_order_ids_witness :
    exit_order sampleExitEnv
        { samplePos with leg_b_order_id := some "b1" } =
      some ⟨false, { samplePos with leg_b_order_id := some "b1" }, []⟩ :=
  C10_exit_requires_order_ids sampleExitEnv
    { samplePos with leg_b_order_id := some "b1" } (Or.inl rfl)

/-- Strings with equal underlying character lists are equal. -/
theorem string_ext (a b : String) (h : a.data = b.data) : a = b := by
  cases a
  cases b
  rw [show ({ data := _ } : String).data = _ from rfl] at h
  exact congrArg String.mk h

/-- Splitting at a colon is unambiguous when neither left part contains one. -/
theorem colon_split_inj (l₁ l₂ r₁ r₂ : List Char)
    (h₁ : ':' ∉ l₁) (h₂ : ':' ∉ l₂)
    (h : l₁ ++ ':' :: r₁ = l₂ ++ ':' :: r₂) : l₁ = l₂ ∧ r₁ = r₂ := by
  induction l₁ generalizing l₂ with
  | nil =>
      cases l₂ with
      | nil => simpa using h
      | cons d ds =>
          simp only [List.nil_append, List.cons_append, List.cons.injEq] at h
          exact absurd (h.1 ▸ List.mem_cons_self d ds) h₂
  | cons c cs ih =>
      cases l₂ with
      | nil =>
          simp only [List.nil_append, List.cons_append, List.cons.injEq] at h
          exact absurd (h.1.symm ▸ List.mem_cons_self c cs) h₁
      | cons d ds =>
          simp only [List.cons_append, List.cons.injEq] at h
          obtain ⟨rfl, htl⟩ := h
          have h₁' : ':' ∉ cs := fun hm => h₁ (List.mem_cons_of_mem _ hm)
          have h₂' : ':' ∉ ds := fun hm => h₂ (List.mem_cons_of_mem _ hm)
          obtain ⟨he, hr⟩ := ih ds h₁' h₂' htl
          exact ⟨by rw [he], hr⟩

/-- Embeds `_make_key` is injective on colon-free venue names. -/
theorem make_key_inj (v₁ s₁ v₂ s₂ : String)
    (h₁ : colonFree v₁) (h₂ : colonFree v₂)
    (h : make_key v₁ s₁ = make_key v₂ s₂) : v₁ = v₂ ∧ s₁ = s₂ := by
  unfold make_key at h
  have hd : v₁.data ++ ':' :: s₁.data = v₂.data ++ ':' :: s₂.data := by
    have := congrArg String.data h
    simpa [String.data_append] using this
  obtain ⟨hv, hs⟩ := colon_split_inj v₁.data v₂.data s₁.data s₂.data h₁ h₂ hd
  exact ⟨string_ext _ _ hv, string_ext _ _ hs⟩

/-- Unfolding `specLastWritten` one update at a time. -/
theorem specLastWritten_cons (u : Upd) (us : List Upd) (v s : String) :
    specLastWritten (u :: us) v s =
      (specLastWritten us v s).elim
        (if u.exchange == v && u.symbol == s then some u.price else none)
        some := by
  unfold specLastWritten
  rw [List.reverse_cons, List.find?_append]
  cases hm : us.reverse.find? (fun x => x.exchange == v && x.symbol == s) with
  | none =>
      cases hpb : (u.exchange == v && u.symbol == s) <;>
        simp [List.find?, hpb]
  | some x => simp

/-- Folding updates over any starting cache reads back the last matching
write, falling back to the starting cache. -/
theorem get_price_foldl (us : List Upd) (c : Cache) (v s : String)
    (hv : colonFree v) (hall : ∀ u ∈ us, colonFree u.exchange) :
    get_price
        (us.foldl
          (fun c u => update_price c u.exchange u.symbol u.price u.timestamp)
          c) v s =
      (specLastWritten us v s).elim (get_price c v s) some := by
  induction us generalizing c with
  | nil => rfl
  | cons u us ih =>
      have hu : colonFree u.exchange := hall u (List.mem_cons_self u us)
      have hall' : ∀ x ∈ us, colonFree x.exchange := fun x hx =>
        hall x (List.mem_cons_of_mem u hx)
      rw [List.foldl_cons, ih _ hall', specLastWritten_cons]
      cases hm : specLastWritten us v s with
      | some q => rfl
      | none =>
          simp only [Option.elim]
          by_cases hp : u.exchange == v && u.symbol == s
          · have hev : u.exchange = v := by
              have := (Bool.and_eq_true _ _).mp hp
              exact beq_iff_eq.mp this.1
            have hes : u.symbol = s := by
              have := (Bool.and_eq_true _ _).mp hp
              exact beq_iff_eq.mp this.2
            simp only [hp, if_true]
            unfold get_price update_price
            rw [hev, hes]
            simp [List.lookup]
          · simp only [hp, if_false]
            unfold get_price update_price
            cases hc : (make_key v s == make_key u.exchange u.symbol) with
            | true =>
                obtain ⟨hv', hs'⟩ :=
                  make_key_inj v s u.exchange u.symbol hv hu (beq_iff_eq.mp hc)
                exact absurd (by simp [hv', hs']) hp
            | false => simp [List.lookup, hc]

/-- C9 counterexample: after updating venue `a` / symbol `b:c` and then venue
`a:b` / symbol `c`, `get_price "a" "b:c"` returns the price written by the
*other* pair (the f-string key collides), not the last price written for
`("a", "b:c")` as the claim requires. -/
theorem C9_counterexample :
    get_price (applyUpdates c9collide) "a" "b:c" = some 2 ∧
      specLastWritten c9collide "a" "b:c" = some 1 :=
  ⟨rfl, rfl⟩

/-- C9 amended: provided the venue names in the update sequence and in the
query contain no colon (so the `venue:symbol` cache keys cannot collide),
`get_price` returns exactly the price of the last update for that
(venue, symbol) pair, and `none` when there is no such update; updates to
other pairs do not affect the result. -/
theorem C9_amended_last_write_wins (us : List Upd) (v s : String)
    (hv : colonFree v) (hall : ∀ u ∈ us, colonFree u.exchange) :
    get_price (applyUpdates us) v s = specLastWritten us v s := by
  unfold applyUpdates
  rw [get_price_foldl us [] v s hv hall]
  cases hm : specLastWritten us v s with
  | none => rfl
  | some q => rfl

/-- C9 witness: on a concrete colon-free sequence the cache read equals the
last write for the queried pair, here price 7. -/
theorem C9_amended_last_write_wins_witness :
    get_price (applyUpdates c9seq) "binance" "BTCUSDT" =
        specLastWritten c9seq "binance" "BTCUSDT" ∧
      specLastWritten c9seq "binance" "BTCUSDT" = some 7 :=
  ⟨C9_amended_last_write_wins c9seq "binance" "BTCUSDT"
    (by simp only [colonFree]; decide)
    (by intro u hu
        simp only [c9seq, List.mem_cons, List.not_mem_nil, or_false] at hu
        rcases hu with rfl | rfl | rfl <;> simp only [colonFree] <;> decide),
   rfl⟩

/-- C6: a full recorded lifecycle — `position_created` from the fresh
position, `position_opened` after a successful `mark_opened`, and
`position_closed` after a successful `mark_closed` — folds back through
`load_position` into a position whose status, entry prices, exit spread and
pnl equal those of the in-memory position that generated the events. -/
theorem C6_load_roundtrip (p0 : Position) (pa pb xa xb : ℚ) (p1 p2 : Position)
    (h1 : mark_opened p0 pa pb = (p1, false))
    (h2 : mark_closed p1 xa xb = (p2, false)) :
    (load_position
        [record_position_created p0, record_position_opened p1,
         record_position_closed p2] p0.position_id).map Position.status =
        some p2.status ∧
      (load_position
        [record_position_created p0, record_position_opened p1,
         record_position_closed p2] p0.position_id).map Position.entry_price_a =
        some p2.entry_price_a ∧
      (load_position
        [record_position_created p0, record_position_opened p1,
         record_position_closed p2] p0.position_id).map Position.entry_price_b =
        some p2.entry_price_b ∧
      (load_position
        [record_position_created p0, record_position_opened p1,
         record_position_closed p2] p0.position_id).map Position.exit_spread =
        some p2.exit_spread ∧
      (load_position
        [record_position_created p0, record_position_opened p1,
         record_position_closed p2] p0.position_id).map Position.pnl =
        some p2.pnl := by
  unfold mark_opened at h1
  cases hsp1 : posCalcSpread p0.scen pa pb with
  | none => rw [hsp1] at h1; simp at h1
  | some sp1 =>
      rw [hsp1] at h1
      simp only [Prod.mk.injEq] at h1
      obtain ⟨hp1, -⟩ := h1
      unfold mark_closed at h2
      cases hsp2 : posCalcSpread p1.scen xa xb with
      | none => rw [hsp2] at h2; simp at h2
      | some sp2 =>
          rw [hsp2] at h2
          simp only [Prod.mk.injEq] at h2
          obtain ⟨hp2, -⟩ := h2
          subst hp1 hp2
          simp +decide [load_position, get_position_history,
            record_position_created, record_position_opened,
            record_position_closed, baseEvent, isLifecycle, mdGet,
            List.lookup, mdFloatOr0, mdOptStr, mdFloatOpt,
            PositionStatus.ofValue, mvalOfOptStr]

/-- C6 witness: the roundtrip on the concrete happy-path lifecycle of the
spec's scenario-A example. -/
theorem C6_load_roundtrip_witness :
    (load_position
        [record_position_created c6p0, record_position_opened c6p1,
         record_position_closed c6p2] c6p0.position_id).map Position.status =
        some c6p2.status ∧
      (load_position
        [record_position_created c6p0, record_position_opened c6p1,
         record_position_closed c6p2] c6p0.position_id).map
          Position.entry_price_a = some c6p2.entry_price_a ∧
      (load_position
        [record_position_created c6p0, record_position_opened c6p1,
         record_position_closed c6p2] c6p0.position_id).map
          Position.entry_price_b = some c6p2.entry_price_b ∧
      (load_position
        [record_position_created c6p0, record_position_opened c6p1,
         record_position_closed c6p2] c6p0.position_id).map
          Position.exit_spread = some c6p2.exit_spread ∧
      (load_position
        [record_position_created c6p0, record_position_opened c6p1,
         record_position_closed c6p2] c6p0.position_id).map Position.pnl =
        some c6p2.pnl :=
  C6_load_roundtrip c6p0 50000 45000 49000 45500 c6p1 c6p2 rfl rfl

/-- Both `mark_opened` branches set status OPENED (even when the spread
computation raises, the status was already mutated). -/
theorem mark_opened_status (p : Position) (pa pb : ℚ) (p' : Position)
    (b : Bool) (h : mark_opened p pa pb = (p', b)) : p'.status = .opened := by
  unfold mark_opened at h
  cases hsp : posCalcSpread p.scen pa pb <;> rw [hsp] at h <;>
    cases h <;> rfl

/-- Both `mark_closed` branches set status CLOSED. -/
theorem mark_closed_status (p : Position) (pa pb : ℚ) (p' : Position)
    (b : Bool) (h : mark_closed p pa pb = (p', b)) : p'.status = .closed := by
  unfold mark_closed at h
  cases hsp : posCalcSpread p.scen pa pb <;> rw [hsp] at h <;>
    cases h <;> rfl

/-- Every completed continuation of an entry run after leg A validated ends
OPENED or ERROR. -/
theorem entryAfterAValid_status (p1 : Position) (oa : OrderResp)
    (cA cB : ClientEnv) (r : RunResult)
    (h : entryAfterAValid p1 oa cA cB = some r) :
    r.pos.status = .opened ∨ r.pos.status = .error := by
  unfold entryAfterAValid at h
  split at h
  · cases h; right; rfl
  · dsimp only at h
    split at h
    · cases h; right; rfl
    · split at h
      · cases h
      · cases h
        left
        exact mark_opened_status _ _ _ _ _ (by assumption)

/-- Every completed `entry_order` run leaves the position OPENED or ERROR. -/
theorem entry_order_status (lev : ℚ) (maxP : ℕ) (env : EntryEnv)
    (p : Position) (r : RunResult)
    (h : entry_order lev maxP env p = some r) :
    r.pos.status = .opened ∨ r.pos.status = .error := by
  unfold entry_order at h
  split at h
  · cases h; right; rfl
  · split at h
    · cases h
    · cases h; right; rfl
    · split at h
      · cases h
      · cases h; right; rfl
      · split at h
        · cases h; right; rfl
        · dsimp only at h
          split at h
          · cases h; right; rfl
          · rcases Option.map_eq_some'.mp h with ⟨r0, h0, hr⟩
            have hpos : r.pos = r0.pos := by rw [← hr]
            rw [hpos]
            exact entryAfterAValid_status _ _ _ _ _ h0

/-- Every completed `exit_order` run leaves the position untouched (missing
ids), CLOSED, or ERROR. -/
theorem exit_order_status (env : ExitEnv) (p : Position) (r : RunResult)
    (h : exit_order env p = some r) :
    r.pos = p ∨ r.pos.status = .closed ∨ r.pos.status = .error := by
  unfold exit_order at h
  split at h
  · cases h; left; rfl
  · dsimp only at h
    split at h
    · cases h; right; right; rfl
    · split at h
      · cases h; right; right; rfl
      · split at h
        · cases h; right; right; rfl
        · split at h
          · cases h; right; right; rfl
          · split at h
            · cases h
            · cases h
              right; left
              exact mark_closed_status _ _ _ _ _ (by assumption)

/-- C5 counterexample: `exit_order` checks only the order ids, never the
status, so applied to an ERROR position with both ids (and fully filled exit
responses) it moves the position to CLOSED — the claimed absorption of ERROR
fails, and a CLOSED position is likewise revived through CLOSING. -/
theorem C5_counterexample :
    c5errPos.status = .error ∧
      (exit_order sampleExitEnv c5errPos).map (fun r => r.pos.status) =
        some .closed :=
  ⟨rfl, by with_unfolding_all rfl⟩

/-- C5 amended: the status transitions are monotone along
PENDING < OPENED < CLOSING < CLOSED (with ERROR as terminal top), ERROR is
reachable from every non-terminal state, and no operation applies to an ERROR
position — *provided* each operation is applied from its intended pre-state
(the mutators themselves are unguarded, as the counterexample shows). -/
theorem C5_amended_guarded_monotone :
    (∀ p p' : Position, PosOpStep p p' →
       statusRank p.status ≤ statusRank p'.status) ∧
    (∀ p : Position, p.status ≠ .closed → p.status ≠ .error →
       PosOpStep p (mark_error p) ∧ (mark_error p).status = .error) ∧
    (∀ p p' : Position, p.status = .error → ¬ PosOpStep p p') := by
  refine ⟨?_, ?_, ?_⟩
  · intro p p' hstep
    cases hstep with
    | mk_opened p pa pb p' hs h =>
        rw [hs, mark_opened_status p pa pb p' false h]
        decide
    | mk_closed p pa pb p' hs h =>
        rw [hs, mark_closed_status p pa pb p' false h]
        decide
    | mk_errored p hnc hne =>
        show statusRank p.status ≤ statusRank (mark_error p).status
        cases hs : p.status <;> simp [mark_error, statusRank]
    | entry lev maxP env p r hs h =>
        rcases entry_order_status lev maxP env p r h with ho | ho <;>
          rw [hs, ho] <;> decide
    | exited env p r hs h =>
        rcases exit_order_status env p r h with ho | ho | ho
        · rw [ho]
        · rw [hs, ho]; decide
        · rw [hs, ho]; decide
  · intro p hnc hne
    exact ⟨PosOpStep.mk_errored p hnc hne, rfl⟩
  · intro p p' he hstep
    cases hstep with
    | mk_opened p pa pb p' hs h => rw [he] at hs; cases hs
    | mk_closed p pa pb p' hs h => rw [he] at hs; cases hs
    | mk_errored p hnc hne => exact hne he
    | entry lev maxP env p r hs h => rw [he] at hs; cases hs
    | exited env p r hs h => rw [he] at hs; cases hs

/-- C5 witness: the PENDING sample position steps to ERROR via `mark_error`
and the rank is preserved upward. -/
theorem C5_amended_guarded_monotone_witness :
    (PosOpStep samplePos (mark_error samplePos) ∧
      (mark_error samplePos).status = .error) ∧
      statusRank samplePos.status ≤ statusRank (mark_error samplePos).status :=
  ⟨C5_amended_guarded_monotone.2.1 samplePos (by decide) (by decide),
   C5_amended_guarded_monotone.1 samplePos (mark_error samplePos)
     (C5_amended_guarded_monotone.2.1 samplePos (by decide) (by decide)).1⟩

/-- C1 counterexample: in this run leg A was confirmed filled (the validation
on the leg-A response succeeds, second conjunct) and the run ends with the
position in ERROR, yet the history holds zero `order_rollback` rows on
venue_a — the failed hedge is recorded as `order_failed` instead — where the
claim demands exactly one. -/
theorem C1_counterexample :
    (entry_order 3 2 c1cexEnv samplePos).map
        (fun r => (r.pos.status, rollbackOnVenueACount samplePos r.events)) =
      some (.error, 0) ∧
    validate_order_execution (okOrder "a1" 50000) samplePos.leg_a_quantity =
      .ok () :=
  ⟨by with_unfolding_all rfl, by with_unfolding_all rfl⟩

/-- C1 amended: for an entry run that passed the risk gate and confirmed
leg A (placement response `oa` validated), with distinct venue names, if the
run ends with the position in ERROR then the history contains exactly one
venue-A `order_rollback` row with opposite side and leg-A quantity when the
compensating hedge order on venue A is accepted, and none when that hedge
placement itself raises (an `order_failed` row is written instead). -/
theorem C1_amended_rollback (lev : ℚ) (maxP : ℕ) (env : EntryEnv)
    (p : Position) (oa : OrderResp) (r : RunResult)
    (hmax : env.openCount < maxP)
    (hbalA : check_balance_sufficiency p.exchange_a p.symbol_a lev env.availA
      p.leg_a_quantity env.hintA = some (.ok (), []))
    (hbalB : check_balance_sufficiency p.exchange_b p.symbol_b lev env.availB
      p.leg_b_quantity env.hintB = some (.ok (), []))
    (hA : env.clientA.place1 = .ok oa)
    (hval : validate_order_execution oa p.leg_a_quantity = .ok ())
    (hex : p.exchange_a ≠ p.exchange_b)
    (hrun : entry_order lev maxP env p = some r)
    (herr : r.pos.status = .error) :
    rollbackOnVenueACount p r.events =
      (match env.clientA.place2 with
       | .ok _ => 1
       | .error _ => 0) := by
  unfold entry_order at hrun
  rw [show check_position_limit maxP env.openCount = .ok () from by
    unfold check_position_limit
    rw [if_neg (not_le.mpr hmax)]] at hrun
  rw [hbalA, hbalB, hA] at hrun
  dsimp only at hrun
  rw [hval] at hrun
  dsimp only at hrun
  rcases Option.map_eq_some'.mp hrun with ⟨r0, h0, hr⟩
  rw [← hr] at herr ⊢
  unfold entryAfterAValid at h0
  cases hB : env.clientB.place1 with
  | error e =>
      rw [hB] at h0
      cases h0
      cases hh : env.clientA.place2 with
      | ok oh =>
          simp [rollbackOnVenueACount, List.countP_cons, List.countP_append,
            rollbackOnVenueA, record_order_placed, record_order_failed,
            record_order_rollback, record_position_error, baseEvent,
            hedge_market_order, hh, mdGet, List.lookup]
      | error e2 =>
          simp [rollbackOnVenueACount, List.countP_cons, List.countP_append,
            rollbackOnVenueA, record_order_placed, record_order_failed,
            record_order_rollback, record_position_error, baseEvent,
            hedge_market_order, hh, mdGet, List.lookup]
  | ok ob =>
      rw [hB] at h0
      dsimp only at h0
      cases hvB : validate_order_execution ob p.leg_b_quantity with
      | error e3 =>
          rw [hvB] at h0
          cases h0
          have hexb : ¬ (MVal.s p.exchange_b == MVal.s p.exchange_a) = true := by
            simp [hex.symm]
          cases hh : env.clientA.place2 with
          | ok oh =>
              by_cases hc : ¬ ob.order_id.isEmpty ∧ env.clientB.cancelOk <;>
                cases hhb : env.clientB.place2 <;>
                simp [rollbackOnVenueACount, List.countP_cons,
                  List.countP_append, rollbackOnVenueA, record_order_placed,
                  record_order_failed, record_order_rollback,
                  record_order_cancelled, record_position_error, baseEvent,
                  hedge_market_order, cleanup_unconfirmed_order, hh, hhb, hc,
                  mdGet, List.lookup, hex.symm] <;>
                (try (rintro a h1 h2 rfl he; simp at he))
          | error e2 =>
              by_cases hc : ¬ ob.order_id.isEmpty ∧ env.clientB.cancelOk <;>
                cases hhb : env.clientB.place2 <;>
                simp [rollbackOnVenueACount, List.countP_cons,
                  List.countP_append, rollbackOnVenueA, record_order_placed,
                  record_order_failed, record_order_rollback,
                  record_order_cancelled, record_position_error, baseEvent,
                  hedge_market_order, cleanup_unconfirmed_order, hh, hhb, hc,
                  mdGet, List.lookup, hex.symm] <;>
                (try (rintro a h1 h2 rfl he; simp at he))
      | ok u =>
          rw [hvB] at h0
          dsimp only at h0
          cases hmo : mark_opened
              { p with
                leg_a_order_id := some oa.order_id
                leg_b_order_id := some ob.order_id } oa.price ob.price with
          | mk p3 raised =>
              cases raised with
              | true => rw [hmo] at h0; cases h0
              | false =>
                  rw [hmo] at h0
                  cases h0
                  have ho := mark_opened_status _ oa.price ob.price p3 false hmo
                  dsimp only at herr
                  rw [ho] at herr
                  simp at herr

/-- C1 witness: in the concrete leg-B-throws run with a successful hedge, the
history holds exactly one venue-A rollback row. -/
theorem C1_amended_rollback_witness :
    rollbackOnVenueACount samplePos c1wRun.events =
      (match c1wEnv.clientA.place2 with
       | .ok _ => 1
       | .error _ => 0) :=
  C1_amended_rollback 3 2 c1wEnv samplePos (okOrder "a1" 50000) c1wRun
    (by decide) (by with_unfolding_all rfl) (by with_unfolding_all rfl)
    (by with_unfolding_all rfl) (by with_unfolding_all rfl) (by decide)
    (by with_unfolding_all rfl) (by with_unfolding_all rfl)

end Parcer
